import Mathlib

/-!
Shallow embedding of the atrion-physics core (crate atrion-physics) over ℝ.

Floating-point values (f64) are modelled as real numbers; every arithmetic
step of the source is mirrored operation for operation. The SIMD magnitude
paths are embedded by tracing the lane-level data flow of the intrinsics.
Divisions are additionally shadowed by Option-valued checked variants in
which division by zero is the only failure, so that totality and guard
placement can be stated.
-/

namespace Atrion

noncomputable section

open Real

/-- Pressure (observation) vector: three real-valued health-deviation
components, from src/atrion-physics/src/types.rs. -/
structure PressureVector where
  latency : ℝ
  error : ℝ
  saturation : ℝ

/-- Per-axis sensitivity weights, from types.rs. -/
structure SensitivityWeights where
  w_latency : ℝ
  w_error : ℝ
  w_saturation : ℝ

/-- Physics engine configuration, from types.rs. -/
structure PhysicsConfig where
  base_resistance : ℝ
  damping_factor : ℝ
  scar_factor : ℝ
  momentum_halflife : ℝ
  bootstrap_ticks : ℕ
  break_threshold : ℝ
  recovery_threshold : ℝ

/-- Branded resistance scalar (Ohms), from types.rs. -/
structure Ohms where
  val : ℝ

/-- Branded scar (trauma) scalar, from types.rs. -/
structure Scar where
  val : ℝ

/-- Branded momentum scalar, from types.rs. -/
structure Momentum where
  val : ℝ

/-- Default configuration, from the Default impl in types.rs. -/
def PhysicsConfig.default : PhysicsConfig :=
  { base_resistance := 10
    damping_factor := 20
    scar_factor := 5
    momentum_halflife := 5000
    bootstrap_ticks := 10
    break_threshold := 100
    recovery_threshold := 50 }

/-- Default sensitivity weights, from the Default impl in types.rs
(the source stores these decimal literals). -/
def SensitivityWeights.default : SensitivityWeights :=
  { w_latency := 1.791759469228055
    w_error := 2.1972245773362196
    w_saturation := 1.3862943611198906 }

/-- Scalar magnitude: sqrt of the sum of squared components, from the
portable fallback in vector.rs. -/
def magnitude (v : PressureVector) : ℝ :=
  Real.sqrt (v.latency * v.latency + v.error * v.error + v.saturation * v.saturation)

/-- AVX2 magnitude path from vector.rs, traced lane by lane over ℝ.
The 256-bit register holds lanes (latency, error, saturation, 0); after
squaring, the horizontal add produces lanes (err2 + lat2, err2 + lat2,
zero2 + sat2, zero2 + sat2); the upper half is extracted and added to the
lower half, and lane 0 of the result is stored and square-rooted. -/
def magnitude_simd_avx2 (v : PressureVector) : ℝ :=
  let sq_lane0 := v.latency * v.latency
  let sq_lane1 := v.error * v.error
  let sq_lane2 := v.saturation * v.saturation
  let sq_lane3 := (0 : ℝ) * 0
  let hadd_lane0 := sq_lane1 + sq_lane0
  let hadd_lane2 := sq_lane3 + sq_lane2
  let sum128_lane0 := hadd_lane0 + hadd_lane2
  Real.sqrt sum128_lane0

/-- WASM SIMD128 magnitude path from vector.rs, traced lane by lane over ℝ:
low register holds (latency, error), high register holds (saturation, 0);
squares are taken per lane, the two low lanes are summed, then the first
high lane is added, and the total is square-rooted. -/
def magnitude_simd_wasm (v : PressureVector) : ℝ :=
  let low_sq_lane0 := v.latency * v.latency
  let low_sq_lane1 := v.error * v.error
  let high_sq_lane0 := v.saturation * v.saturation
  let sum_low := low_sq_lane0 + low_sq_lane1
  let total := sum_low + high_sq_lane0
  Real.sqrt total

/-- Weighted dot product of a pressure vector and sensitivity weights,
from vector.rs. -/
def dot_product (v : PressureVector) (weights : SensitivityWeights) : ℝ :=
  v.latency * weights.w_latency + v.error * weights.w_error
    + v.saturation * weights.w_saturation

/-- Positive stress magnitude (check-valve pattern): each component clamped
to zero from below before squaring, from vector.rs. -/
def positive_stress_magnitude (v : PressureVector) : ℝ :=
  let lat := max v.latency 0
  let err := max v.error 0
  let sat := max v.saturation 0
  Real.sqrt (lat * lat + err * err + sat * sat)

/-- Component-wise difference of two pressure vectors, as built inline in
update_momentum in momentum.rs (current minus previous). -/
def pressure_delta (current_pressure previous_pressure : PressureVector) :
    PressureVector :=
  { latency := current_pressure.latency - previous_pressure.latency
    error := current_pressure.error - previous_pressure.error
    saturation := current_pressure.saturation - previous_pressure.saturation }

/-- Momentum update from momentum.rs: exponential decay toward the
instantaneous acceleration, with acceleration defined as zero for
non-positive elapsed time. -/
def update_momentum (current_momentum : Momentum)
    (previous_pressure current_pressure : PressureVector)
    (delta_t : ℝ) (config : PhysicsConfig) : Momentum :=
  let decay := Real.exp (-delta_t / config.momentum_halflife)
  let delta_pressure := pressure_delta current_pressure previous_pressure
  let acceleration := if delta_t > 0 then magnitude delta_pressure / delta_t else 0
  ⟨current_momentum.val * decay + acceleration * (1 - decay)⟩

/-- Resistance calculation from resistance.rs: base plus weighted pressure
plus damped momentum plus scar plus staleness, floored at base. -/
def calculate_resistance (pressure : PressureVector) (momentum : Momentum)
    (scar : Scar) (weights : SensitivityWeights) (config : PhysicsConfig)
    (staleness : ℝ) : Ohms :=
  let weighted_pressure := dot_product pressure weights
  let momentum_contribution := config.damping_factor * momentum.val
  let total := config.base_resistance + weighted_pressure
    + momentum_contribution + scar.val + staleness
  ⟨max total config.base_resistance⟩

/-- Scar update from scar.rs: adds the flat trauma impulse when positive
stress exceeds the critical threshold 0.7; no decay, no floor. The weights
argument is accepted but unused, exactly as in the source. -/
def update_scar (current_scar : Scar) (pressure : PressureVector)
    ( _weights : SensitivityWeights) (config : PhysicsConfig) : Scar :=
  let positive_stress := positive_stress_magnitude pressure
  let trauma := if positive_stress > 0.7 then config.scar_factor else 0
  ⟨current_scar.val + trauma⟩

/-- Scar update with decay from scar.rs: elapsed time is taken in
milliseconds and converted to seconds, the current scar decays at rate 0.1
per second, the same trauma impulse is added, and the sum is floored at 0. -/
def update_scar_with_decay (current_scar : Scar) (pressure : PressureVector)
    (delta_t_ms : ℝ) (config : PhysicsConfig) : Scar :=
  let dt_seconds := delta_t_ms / 1000
  let decay_rate : ℝ := 0.1
  let decayed := current_scar.val * Real.exp (-decay_rate * dt_seconds)
  let positive_stress := positive_stress_magnitude pressure
  let trauma := if positive_stress > 0.7 then config.scar_factor else 0
  ⟨max (decayed + trauma) 0⟩

/-- Engine facade from lib.rs: immutable configuration and weights. -/
structure PhysicsEngine where
  config : PhysicsConfig
  weights : SensitivityWeights

/-- Engine constructed with defaults, from PhysicsEngine::new in lib.rs. -/
def PhysicsEngine.new : PhysicsEngine :=
  ⟨PhysicsConfig.default, SensitivityWeights.default⟩

/-- Engine constructed with explicit configuration and weights, from
PhysicsEngine::with_config in lib.rs. -/
def PhysicsEngine.withConfig (config : PhysicsConfig)
    (weights : SensitivityWeights) : PhysicsEngine :=
  ⟨config, weights⟩

/-- Facade method calculateResistance from lib.rs: wraps the plain scalars
into their branded types and delegates to calculate_resistance. -/
def PhysicsEngine.calculateResistance (e : PhysicsEngine)
    (pressure : PressureVector) (momentum scar staleness : ℝ) : ℝ :=
  (Atrion.calculate_resistance pressure ⟨momentum⟩ ⟨scar⟩ e.weights e.config
    staleness).val

/-- Facade method updateScar from lib.rs: delegates to update_scar (the
variant without decay and without a floor). -/
def PhysicsEngine.updateScar (e : PhysicsEngine) (current_scar : ℝ)
    (pressure : PressureVector) : ℝ :=
  (Atrion.update_scar ⟨current_scar⟩ pressure e.weights e.config).val

/-- Facade method updateMomentum from lib.rs. -/
def PhysicsEngine.updateMomentum (e : PhysicsEngine) (current_momentum : ℝ)
    (previous_pressure current_pressure : PressureVector) (delta_t : ℝ) : ℝ :=
  (Atrion.update_momentum ⟨current_momentum⟩ previous_pressure
    current_pressure delta_t e.config).val

/-- Facade method vectorMagnitude from lib.rs. -/
def PhysicsEngine.vectorMagnitude (pressure : PressureVector) : ℝ :=
  magnitude pressure

/-- Guarded division: the Option-valued shadow of a source division, failing
exactly when the divisor is zero. -/
def checked_div (a b : ℝ) : Option ℝ :=
  if b = 0 then none else some (a / b)

/-- Checked shadow of calculate_resistance: the body performs no division,
so every step is mirrored directly under some. -/
def calculate_resistance_checked (pressure : PressureVector)
    (momentum : Momentum) (scar : Scar) (weights : SensitivityWeights)
    (config : PhysicsConfig) (staleness : ℝ) : Option Ohms :=
  let weighted_pressure := dot_product pressure weights
  let momentum_contribution := config.damping_factor * momentum.val
  let total := config.base_resistance + weighted_pressure
    + momentum_contribution + scar.val + staleness
  some ⟨max total config.base_resistance⟩

/-- Checked shadow of update_scar: no division in the body. -/
def update_scar_checked (current_scar : Scar) (pressure : PressureVector)
    ( _weights : SensitivityWeights) (config : PhysicsConfig) : Option Scar :=
  let positive_stress := positive_stress_magnitude pressure
  let trauma := if positive_stress > 0.7 then config.scar_factor else 0
  some ⟨current_scar.val + trauma⟩

/-- Checked shadow of update_scar_with_decay: the single division is the
milliseconds-to-seconds conversion by the constant 1000. -/
def update_scar_with_decay_checked (current_scar : Scar)
    (pressure : PressureVector) (delta_t_ms : ℝ) (config : PhysicsConfig) :
    Option Scar :=
  (checked_div delta_t_ms 1000).bind fun dt_seconds =>
    let decay_rate : ℝ := 0.1
    let decayed := current_scar.val * Real.exp (-decay_rate * dt_seconds)
    let positive_stress := positive_stress_magnitude pressure
    let trauma := if positive_stress > 0.7 then config.scar_factor else 0
    some ⟨max (decayed + trauma) 0⟩

/-- Checked shadow of update_momentum: the division by momentum_halflife is
performed unconditionally, while the division by delta_t happens only in
the branch guarded by delta_t being positive. -/
def update_momentum_checked (current_momentum : Momentum)
    (previous_pressure current_pressure : PressureVector)
    (delta_t : ℝ) (config : PhysicsConfig) : Option Momentum :=
  (checked_div (-delta_t) config.momentum_halflife).bind fun exponent =>
    let decay := Real.exp exponent
    let delta_pressure := pressure_delta current_pressure previous_pressure
    (if delta_t > 0 then checked_div (magnitude delta_pressure) delta_t
      else some 0).bind fun acceleration =>
      some ⟨current_momentum.val * decay + acceleration * (1 - decay)⟩

/-- Helper: the resistance value unfolded to its max form. -/
theorem calculate_resistance_val (pressure : PressureVector)
    (momentum : Momentum) (scar : Scar) (weights : SensitivityWeights)
    (config : PhysicsConfig) (staleness : ℝ) :
    (calculate_resistance pressure momentum scar weights config staleness).val
      = max (config.base_resistance + dot_product pressure weights
          + config.damping_factor * momentum.val + scar.val + staleness)
        config.base_resistance := rfl

/-- Helper: positive stress magnitude of a vector with all components
non-positive is zero. -/
theorem positive_stress_magnitude_nonpos (v : PressureVector)
    (h1 : v.latency ≤ 0) (h2 : v.error ≤ 0) (h3 : v.saturation ≤ 0) :
    positive_stress_magnitude v = 0 := by
  simp only [positive_stress_magnitude]
  rw [max_eq_right h1, max_eq_right h2, max_eq_right h3]
  simp

/-- C2: calculate_resistance returns the maximum of the raw sum
(base resistance plus weighted pressure plus damped momentum plus scar plus
staleness) and the base resistance, and consequently the returned
resistance is never below base_resistance, for any inputs. -/
theorem c2_resistance_formula_and_floor (pressure : PressureVector)
    (momentum : Momentum) (scar : Scar) (weights : SensitivityWeights)
    (config : PhysicsConfig) (staleness : ℝ) :
    (calculate_resistance pressure momentum scar weights config staleness).val
      = max (config.base_resistance + dot_product pressure weights
          + config.damping_factor * momentum.val + scar.val + staleness)
        config.base_resistance
    ∧ config.base_resistance
        ≤ (calculate_resistance pressure momentum scar weights config
            staleness).val := by
  refine ⟨rfl, ?_⟩
  exact le_max_right _ _

/-- C10: update_scar ignores its sensitivity-weights argument: two calls
differing only in the weights return the same scar. -/
theorem c10_scar_ignores_weights (s : Scar) (v : PressureVector)
    (w1 w2 : SensitivityWeights) (c : PhysicsConfig) :
    update_scar s v w1 c = update_scar s v w2 c := rfl

/-- C5: the AVX2 and WASM SIMD128 magnitude paths each return exactly the
scalar magnitude over ℝ, hence agree with it within a relative error of
1e-9 for every input vector. -/
theorem c5_simd_magnitude_parity (v : PressureVector) :
    magnitude_simd_avx2 v = magnitude v
    ∧ magnitude_simd_wasm v = magnitude v
    ∧ |magnitude_simd_avx2 v - magnitude v| ≤ 1e-9 * |magnitude v|
    ∧ |magnitude_simd_wasm v - magnitude v| ≤ 1e-9 * |magnitude v| := by
  have h1 : magnitude_simd_avx2 v = magnitude v := by
    simp only [magnitude_simd_avx2, magnitude]
    congr 1
    ring
  have h2 : magnitude_simd_wasm v = magnitude v := rfl
  refine ⟨h1, h2, ?_, ?_⟩
  · rw [h1, sub_self, abs_zero]
    positivity
  · rw [h2, sub_self, abs_zero]
    positivity

/-- C1 counterexample: the scar update exposed by the engine facade does
not satisfy the combined decay-plus-floor formula. At current scar 10, the
zero pressure vector and one second of elapsed time, the facade returns 10
while the claimed formula gives 10 times exp of minus 0.1. -/
theorem c1_counterexample :
    PhysicsEngine.new.updateScar 10 ⟨0, 0, 0⟩
      ≠ max 0 (10 * Real.exp (-(0.1 : ℝ) * 1) + 0) := by
  have hpsm : positive_stress_magnitude ⟨0, 0, 0⟩ = 0 := by
    simp [positive_stress_magnitude]
  have hL : PhysicsEngine.new.updateScar 10 ⟨0, 0, 0⟩ = 10 := by
    show (update_scar ⟨10⟩ ⟨0, 0, 0⟩ _ _).val = 10
    simp [update_scar, hpsm]
    norm_num
  have he : Real.exp (-(0.1 : ℝ) * 1) < 1 := by
    rw [Real.exp_lt_one_iff]
    norm_num
  have hR : max 0 (10 * Real.exp (-(0.1 : ℝ) * 1) + 0) < 10 := by
    have hp := Real.exp_pos (-(0.1 : ℝ) * 1)
    apply max_lt
    · norm_num
    · nlinarith
  rw [hL]
  exact ne_of_gt hR

/-- C1 amended: the one-step combination of exponential decay, the flat
trauma impulse and the floor at zero is implemented by the standalone
function update_scar_with_decay, whose elapsed-time argument is in
milliseconds and is converted to seconds by dividing by 1000: the new scar
equals max(0, S times exp(-0.1 times dt_seconds) plus trauma), and is never
negative. The operation exposed by the engine facade delegates to
update_scar instead, which applies neither decay nor a floor. -/
theorem c1_scar_decay_combined (s : ℝ) (v : PressureVector) (dt_ms : ℝ)
    (c : PhysicsConfig) :
    (update_scar_with_decay ⟨s⟩ v dt_ms c).val
      = max 0 (s * Real.exp (-(0.1 : ℝ) * (dt_ms / 1000))
          + if positive_stress_magnitude v > 0.7 then c.scar_factor else 0)
    ∧ 0 ≤ (update_scar_with_decay ⟨s⟩ v dt_ms c).val := by
  constructor
  · exact max_comm _ _
  · exact le_max_right _ _

/-- C3: trauma gating in update_scar: at or below the critical threshold
0.7 of positive stress magnitude the scar is returned unchanged; strictly
above it, exactly the constant scar_factor is added, independent of how far
above the threshold the stress is. -/
theorem c3_trauma_gating (s : ℝ) (v : PressureVector)
    (w : SensitivityWeights) (c : PhysicsConfig) :
    (positive_stress_magnitude v ≤ 0.7 → update_scar ⟨s⟩ v w c = ⟨s⟩)
    ∧ (0.7 < positive_stress_magnitude v →
        update_scar ⟨s⟩ v w c = ⟨s + c.scar_factor⟩) := by
  constructor
  · intro h
    simp [update_scar, not_lt.mpr h]
  · intro h
    simp [update_scar, h]

/-- C3 witness: with the default configuration, an all-negative vector
leaves scar 5 unchanged, and vector (0.8, 0.6, 0.5) with positive stress
sqrt 1.25 adds exactly the default scar_factor. -/
theorem c3_witness :
    update_scar ⟨5⟩ ⟨-0.5, -0.3, -0.2⟩ SensitivityWeights.default
        PhysicsConfig.default = ⟨5⟩
    ∧ update_scar ⟨0⟩ ⟨0.8, 0.6, 0.5⟩ SensitivityWeights.default
        PhysicsConfig.default = ⟨0 + PhysicsConfig.default.scar_factor⟩ := by
  constructor
  · apply (c3_trauma_gating 5 ⟨-0.5, -0.3, -0.2⟩ SensitivityWeights.default
      PhysicsConfig.default).1
    have hm : positive_stress_magnitude ⟨-0.5, -0.3, -0.2⟩ = 0 := by
      have ha : max (-0.5 : ℝ) 0 = 0 := max_eq_right (by norm_num)
      have hb : max (-0.3 : ℝ) 0 = 0 := max_eq_right (by norm_num)
      have hc : max (-0.2 : ℝ) 0 = 0 := max_eq_right (by norm_num)
      simp [positive_stress_magnitude, ha, hb, hc]
    rw [hm]
    norm_num
  · apply (c3_trauma_gating 0 ⟨0.8, 0.6, 0.5⟩ SensitivityWeights.default
      PhysicsConfig.default).2
    have hm : positive_stress_magnitude ⟨0.8, 0.6, 0.5⟩ = Real.sqrt 1.25 := by
      have ha : max (0.8 : ℝ) 0 = 0.8 := max_eq_left (by norm_num)
      have hb : max (0.6 : ℝ) 0 = 0.6 := max_eq_left (by norm_num)
      have hc : max (0.5 : ℝ) 0 = 0.5 := max_eq_left (by norm_num)
      simp only [positive_stress_magnitude, ha, hb, hc]
      norm_num
    rw [hm]
    exact (Real.lt_sqrt (by norm_num)).mpr (by norm_num)

/-- C4: update_momentum blends the prior momentum toward the instantaneous
acceleration with decay exp(-delta_t / halflife), where the acceleration is
the magnitude of the vector change divided by delta_t when delta_t is
positive and zero otherwise; at delta_t = 0 the momentum is returned
exactly unchanged. -/
theorem c4_momentum_formula (m : ℝ) (prev curr : PressureVector)
    (dt : ℝ) (c : PhysicsConfig) :
    (update_momentum ⟨m⟩ prev curr dt c).val
      = m * Real.exp (-dt / c.momentum_halflife)
        + (if dt > 0 then magnitude (pressure_delta curr prev) / dt else 0)
          * (1 - Real.exp (-dt / c.momentum_halflife))
    ∧ (dt = 0 → (update_momentum ⟨m⟩ prev curr dt c).val = m) := by
  constructor
  · rfl
  · intro h
    subst h
    simp [update_momentum]

/-- C4 witness: at delta_t = 0 and a changed vector, momentum 5 is returned
exactly. -/
theorem c4_witness :
    (update_momentum ⟨5⟩ ⟨0.5, 0.2, 0.3⟩ ⟨0.8, 0.4, 0.5⟩ 0
      PhysicsConfig.default).val = 5 :=
  (c4_momentum_formula 5 ⟨0.5, 0.2, 0.3⟩ ⟨0.8, 0.4, 0.5⟩ 0
    PhysicsConfig.default).2 rfl

/-- C6: the check valve: positive_stress_magnitude squares each component
clamped to non-negative, is invariant under replacing negative components
by zero, and vanishes on vectors with all components non-positive. -/
theorem c6_check_valve (v : PressureVector) :
    positive_stress_magnitude v
      = Real.sqrt ((max v.latency 0) ^ 2 + (max v.error 0) ^ 2
          + (max v.saturation 0) ^ 2)
    ∧ positive_stress_magnitude v
        = positive_stress_magnitude
            ⟨max v.latency 0, max v.error 0, max v.saturation 0⟩
    ∧ (v.latency ≤ 0 → v.error ≤ 0 → v.saturation ≤ 0 →
        positive_stress_magnitude v = 0) := by
  refine ⟨?_, ?_, ?_⟩
  · simp only [positive_stress_magnitude]
    congr 1
    ring
  · simp only [positive_stress_magnitude]
    rw [max_eq_left (le_max_right v.latency 0),
      max_eq_left (le_max_right v.error 0),
      max_eq_left (le_max_right v.saturation 0)]
  · exact positive_stress_magnitude_nonpos v

/-- C6 witness: the all-negative vector (-0.5, -0.3, -0.2) has positive
stress magnitude zero. -/
theorem c6_witness : positive_stress_magnitude ⟨-0.5, -0.3, -0.2⟩ = 0 :=
  (c6_check_valve ⟨-0.5, -0.3, -0.2⟩).2.2 (by norm_num) (by norm_num)
    (by norm_num)

/-- C7: calculate_resistance is monotone non-decreasing in the weighted
pressure term, in momentum given a positive damping factor, in scar, and in
staleness, holding the other inputs fixed. -/
theorem c7_resistance_monotone (v v1 v2 : PressureVector)
    (m m1 m2 : Momentum) (s s1 s2 : Scar) (w : SensitivityWeights)
    (c : PhysicsConfig) (u u1 u2 : ℝ) :
    (dot_product v1 w ≤ dot_product v2 w →
      (calculate_resistance v1 m s w c u).val
        ≤ (calculate_resistance v2 m s w c u).val)
    ∧ (0 < c.damping_factor → m1.val ≤ m2.val →
      (calculate_resistance v m1 s w c u).val
        ≤ (calculate_resistance v m2 s w c u).val)
    ∧ (s1.val ≤ s2.val →
      (calculate_resistance v m s1 w c u).val
        ≤ (calculate_resistance v m s2 w c u).val)
    ∧ (u1 ≤ u2 →
      (calculate_resistance v m s w c u1).val
        ≤ (calculate_resistance v m s w c u2).val) := by
  refine ⟨fun h => ?_, fun hd hm => ?_, fun hs => ?_, fun hu => ?_⟩ <;>
    rw [calculate_resistance_val, calculate_resistance_val]
  · exact max_le_max (by linarith) le_rfl
  · have := mul_le_mul_of_nonneg_left hm hd.le
    exact max_le_max (by linarith) le_rfl
  · exact max_le_max (by linarith) le_rfl
  · exact max_le_max (by linarith) le_rfl

/-- C7 witness: each monotonicity clause applied at concrete inputs with
the default configuration and weights. -/
theorem c7_witness :
    (calculate_resistance ⟨0, 0, 0⟩ ⟨0⟩ ⟨0⟩ SensitivityWeights.default
        PhysicsConfig.default 0).val
      ≤ (calculate_resistance ⟨1, 1, 1⟩ ⟨0⟩ ⟨0⟩ SensitivityWeights.default
        PhysicsConfig.default 0).val
    ∧ (calculate_resistance ⟨0, 0, 0⟩ ⟨0⟩ ⟨0⟩ SensitivityWeights.default
        PhysicsConfig.default 0).val
      ≤ (calculate_resistance ⟨0, 0, 0⟩ ⟨2⟩ ⟨0⟩ SensitivityWeights.default
        PhysicsConfig.default 0).val
    ∧ (calculate_resistance ⟨0, 0, 0⟩ ⟨0⟩ ⟨1⟩ SensitivityWeights.default
        PhysicsConfig.default 0).val
      ≤ (calculate_resistance ⟨0, 0, 0⟩ ⟨0⟩ ⟨3⟩ SensitivityWeights.default
        PhysicsConfig.default 0).val
    ∧ (calculate_resistance ⟨0, 0, 0⟩ ⟨0⟩ ⟨0⟩ SensitivityWeights.default
        PhysicsConfig.default 0).val
      ≤ (calculate_resistance ⟨0, 0, 0⟩ ⟨0⟩ ⟨0⟩ SensitivityWeights.default
        PhysicsConfig.default 1).val := by
  refine ⟨?_, ?_, ?_, ?_⟩
  · apply (c7_resistance_monotone ⟨0, 0, 0⟩ ⟨0, 0, 0⟩ ⟨1, 1, 1⟩ ⟨0⟩ ⟨0⟩ ⟨0⟩
      ⟨0⟩ ⟨0⟩ ⟨0⟩ SensitivityWeights.default PhysicsConfig.default 0 0 0).1
    simp [dot_product, SensitivityWeights.default]
    norm_num
  · apply (c7_resistance_monotone ⟨0, 0, 0⟩ ⟨0, 0, 0⟩ ⟨0, 0, 0⟩ ⟨0⟩ ⟨0⟩ ⟨2⟩
      ⟨0⟩ ⟨0⟩ ⟨0⟩ SensitivityWeights.default PhysicsConfig.default 0 0 0).2.1
    · norm_num [PhysicsConfig.default]
    · norm_num
  · apply (c7_resistance_monotone ⟨0, 0, 0⟩ ⟨0, 0, 0⟩ ⟨0, 0, 0⟩ ⟨0⟩ ⟨0⟩ ⟨0⟩
      ⟨0⟩ ⟨1⟩ ⟨3⟩ SensitivityWeights.default PhysicsConfig.default 0 0 0).2.2.1
    norm_num
  · apply (c7_resistance_monotone ⟨0, 0, 0⟩ ⟨0, 0, 0⟩ ⟨0, 0, 0⟩ ⟨0⟩ ⟨0⟩ ⟨0⟩
      ⟨0⟩ ⟨0⟩ ⟨0⟩ SensitivityWeights.default PhysicsConfig.default 0 0
      1).2.2.2
    norm_num

/-- C8: totality: the checked shadows, in which division by zero is the
only failure, return some of the plain result for calculate_resistance and
update_scar unconditionally (no division at all), for
update_scar_with_decay unconditionally (its only division is by the
constant 1000), and for update_momentum whenever momentum_halflife is
non-zero — in particular also at delta_t = 0 or negative, since the
division by delta_t sits behind the positivity guard; the division by
momentum_halflife is performed for every input, so a zero halflife makes
the checked shadow fail. -/
theorem c8_totality (p prev curr : PressureVector) (m : Momentum) (s : Scar)
    (w : SensitivityWeights) (c : PhysicsConfig) (u dt dtms : ℝ) :
    calculate_resistance_checked p m s w c u
      = some (calculate_resistance p m s w c u)
    ∧ update_scar_checked s p w c = some (update_scar s p w c)
    ∧ update_scar_with_decay_checked s p dtms c
        = some (update_scar_with_decay s p dtms c)
    ∧ (c.momentum_halflife ≠ 0 →
        update_momentum_checked m prev curr dt c
          = some (update_momentum m prev curr dt c))
    ∧ (c.momentum_halflife = 0 →
        update_momentum_checked m prev curr dt c = none) := by
  refine ⟨rfl, rfl, ?_, ?_, ?_⟩
  · norm_num [update_scar_with_decay_checked, update_scar_with_decay,
      checked_div]
  · intro h
    by_cases hdt : dt > 0
    · have hne : dt ≠ 0 := ne_of_gt hdt
      simp [update_momentum_checked, update_momentum, checked_div, h, hdt,
        hne]
    · simp [update_momentum_checked, update_momentum, checked_div, h, hdt]
  · intro h
    simp [update_momentum_checked, checked_div, h]

/-- C8 witness: with the default configuration (halflife 5000) the checked
momentum update succeeds and agrees with the plain one, and with a
halflife of zero it fails. -/
theorem c8_witness :
    update_momentum_checked ⟨5⟩ ⟨0, 0, 0⟩ ⟨0.5, 0.2, 0.3⟩ 100
        PhysicsConfig.default
      = some (update_momentum ⟨5⟩ ⟨0, 0, 0⟩ ⟨0.5, 0.2, 0.3⟩ 100
        PhysicsConfig.default)
    ∧ update_momentum_checked ⟨5⟩ ⟨0, 0, 0⟩ ⟨0.5, 0.2, 0.3⟩ 100
        ⟨10, 20, 5, 0, 10, 100, 50⟩ = none := by
  constructor
  · exact (c8_totality ⟨0, 0, 0⟩ ⟨0, 0, 0⟩ ⟨0.5, 0.2, 0.3⟩ ⟨5⟩ ⟨0⟩
      SensitivityWeights.default PhysicsConfig.default 0 100 0).2.2.2.1
      (by norm_num [PhysicsConfig.default])
  · exact (c8_totality ⟨0, 0, 0⟩ ⟨0, 0, 0⟩ ⟨0.5, 0.2, 0.3⟩ ⟨5⟩ ⟨0⟩
      SensitivityWeights.default ⟨10, 20, 5, 0, 10, 100, 50⟩ 0 100
      0).2.2.2.2 rfl

/-- C9: the engine facade updateScar applies neither decay nor a floor: it
returns the input scar plus scar_factor when positive stress exceeds 0.7
and the input scar unchanged otherwise; with non-negative scar_factor the
result never decreases, and a negative input scar passes through unchanged
on a sub-threshold tick rather than being clamped to 0. -/
theorem c9_engine_scar_no_decay_no_floor (c : PhysicsConfig)
    (w : SensitivityWeights) (s : ℝ) (v : PressureVector) :
    PhysicsEngine.updateScar ⟨c, w⟩ s v
      = (if positive_stress_magnitude v > 0.7 then s + c.scar_factor else s)
    ∧ (0 ≤ c.scar_factor → s ≤ PhysicsEngine.updateScar ⟨c, w⟩ s v)
    ∧ (positive_stress_magnitude v ≤ 0.7 →
        PhysicsEngine.updateScar ⟨c, w⟩ s v = s) := by
  have hval : PhysicsEngine.updateScar ⟨c, w⟩ s v
      = s + (if positive_stress_magnitude v > 0.7 then c.scar_factor
          else 0) := rfl
  refine ⟨?_, ?_, ?_⟩
  · rw [hval]
    split_ifs <;> simp
  · intro hsf
    rw [hval]
    split_ifs with h
    · linarith
    · simp
  · intro h
    rw [hval, if_neg (not_lt.mpr h)]
    norm_num

/-- C9 witness: a negative scar of -3 passes through the default engine
unchanged on a zero-pressure tick, and is not decreased. -/
theorem c9_witness :
    PhysicsEngine.updateScar ⟨PhysicsConfig.default,
        SensitivityWeights.default⟩ (-3) ⟨0, 0, 0⟩ = -3
    ∧ (-3 : ℝ) ≤ PhysicsEngine.updateScar ⟨PhysicsConfig.default,
        SensitivityWeights.default⟩ (-3) ⟨0, 0, 0⟩ := by
  have hpsm : positive_stress_magnitude ⟨0, 0, 0⟩ ≤ 0.7 := by
    have h0 : positive_stress_magnitude ⟨0, 0, 0⟩ = 0 := by
      simp [positive_stress_magnitude]
    rw [h0]
    norm_num
  constructor
  · exact (c9_engine_scar_no_decay_no_floor PhysicsConfig.default
      SensitivityWeights.default (-3) ⟨0, 0, 0⟩).2.2 hpsm
  · exact (c9_engine_scar_no_decay_no_floor PhysicsConfig.default
      SensitivityWeights.default (-3) ⟨0, 0, 0⟩).2.1
      (by norm_num [PhysicsConfig.default])

end

end Atrion
